import Mathlib

/-!
Shallow embedding of the multilingual conversational assistant orchestrator
of `src/pages/Dashboards/PatientDashboard.tsx` (the AyurSutra patient
dashboard).  The embedded pieces are the React component's chat state, the
simulated translation bridge `translateText`, the exchange orchestrator
`handleAskAI` (with the generation-service HTTP outcome supplied as an
explicit oracle value, since it is the one external, fallible call), and the
voice-capture toggle `handleToggleListening`.
-/

namespace AyurSutra

/-- JavaScript `s.startsWith(p)`: whether `p` is a prefix of `s`, embedded as
a structural computation over the characters so the kernel can evaluate it. -/
def jsStartsWith (s p : String) : Bool := s.data.take p.data.length == p.data

/-- JavaScript `s.trim()`: remove whitespace from both ends. -/
def jsTrim (s : String) : String :=
  ⟨List.dropWhile Char.isWhitespace
    (List.reverse (List.dropWhile Char.isWhitespace (List.reverse s.data)))⟩

/-- JavaScript `s.split(sep)[0]` for a one-character separator: the part of
`s` before the first occurrence of `sep` (all of `s` when absent). -/
def jsSplitHead (s : String) (sep : Char) : String :=
  ⟨s.data.takeWhile (fun c => !(c == sep))⟩

/-- The role of a chat message: `user` or `model` (the assistant). -/
inductive Role where
  | user
  | model
deriving DecidableEq, Repr

/-- A chat message, mirroring `type ChatMessage = { role: 'user' | 'model'; text: string }`. -/
structure ChatMessage where
  role : Role
  text : String
deriving DecidableEq, Repr

/-- The component state relevant to the assistant: `userInput`, `chatHistory`,
`isLoading` (the in-flight flag), `isListening`, `selectedLanguage`. -/
structure DashState where
  userInput : String
  chatHistory : List ChatMessage
  isLoading : Bool
  isListening : Bool
  selectedLanguage : String
deriving DecidableEq, Repr

/-- The simulated translation bridge (lines 98-111): if the target language
starts with `en`, return the text unchanged; otherwise return the text
tagged with the target language's primary subtag, as in
`return \x7b`[${targetLang.split('-')[0]}] ${text}`\x7d`. -/
def translateText (text : String) (targetLang : String) (sourceLang : String) : String :=
  if jsStartsWith targetLang "en" then text
  else "[" ++ jsSplitHead targetLang '-' ++ "] " ++ text

/-- The outcome of the single `fetch` to the generation endpoint: either the
promise rejects (network/transport failure, or a body-parse failure), or a
response arrives with its `ok` flag, `statusText`, the stringified error
body, and the optional extracted `candidates[0].content.parts[0].text`. -/
inductive FetchOutcome where
  | reject (msg : String)
  | resp (ok : Bool) (statusText : String) (errorBody : String) (extracted : Option String)
deriving DecidableEq, Repr

/-- JavaScript `x || d` for an optional string `x`: `undefined` and the empty
string are falsy, so both fall back to `d`. -/
def jsOrDefault (x : Option String) (d : String) : String :=
  match x with
  | none => d
  | some t => if t = "" then d else t

/-- The generation-client portion of `handleAskAI` (lines 150-162): on a
rejected fetch the error propagates; on a non-ok response the client throws
`API error: ${response.statusText} - ${JSON.stringify(errorData)}`; on an ok
response the extracted text (possibly absent) is returned. -/
def geminiFetch (o : FetchOutcome) : Except String (Option String) :=
  match o with
  | FetchOutcome.reject msg => Except.error msg
  | FetchOutcome.resp ok statusText errorBody extracted =>
    if ok then Except.ok extracted
    else Except.error ("API error: " ++ statusText ++ " - " ++ errorBody)

/-- The fixed apology appended by the catch block (line 174). -/
def apologyText : String := "I'm having trouble connecting right now. Please try again."

/-- The fixed placeholder substituted when the parsed response has no usable
text (line 162). -/
def placeholderText : String := "Sorry, I couldn't process that."

/-- An observable call to an external service made during one exchange. -/
inductive ServiceCall where
  | translateReq (text : String) (targetLang : String) (sourceLang : String)
  | generateReq (englishQuery : String)
deriving DecidableEq, Repr

/-- The state right after the submission block of `handleAskAI`
(lines 118-122): the in-flight flag is raised, the user's raw message is
appended, and the input field is cleared.  This is the one observable state
between submission and the terminal append, since the `await` suspension
points perform no further `setState`. -/
def submitState (s : DashState) : DashState :=
  { s with isLoading := true,
           chatHistory := s.chatHistory ++ [⟨Role.user, s.userInput⟩],
           userInput := "" }

/-- The orchestrator `handleAskAI` (lines 115-179), with the fetch outcome as
an oracle.  Returns the terminal state and the list of external service
calls in the order they are issued.  The entry guard rejects an empty or
whitespace-only input and an in-flight exchange; the first translation and
the guard use the `userInput` value captured at submission. -/
def handleAskAI (s : DashState) (o : FetchOutcome) : DashState × List ServiceCall :=
  if jsTrim s.userInput = "" ∨ s.isLoading = true then (s, [])
  else
    let s1 := submitState s
    let englishQuery := if jsStartsWith s.selectedLanguage "en" then s.userInput
      else translateText s.userInput "en-US" s.selectedLanguage
    let preCalls := if jsStartsWith s.selectedLanguage "en" then ([] : List ServiceCall)
      else [ServiceCall.translateReq s.userInput "en-US" s.selectedLanguage]
    match geminiFetch o with
    | Except.ok extracted =>
      let modelResponseInEnglish := jsOrDefault extracted placeholderText
      let translatedResponse := if jsStartsWith s.selectedLanguage "en" then modelResponseInEnglish
        else translateText modelResponseInEnglish s.selectedLanguage "en-US"
      let postCalls := if jsStartsWith s.selectedLanguage "en" then ([] : List ServiceCall)
        else [ServiceCall.translateReq modelResponseInEnglish s.selectedLanguage "en-US"]
      ({ s1 with chatHistory := s1.chatHistory ++ [⟨Role.model, translatedResponse⟩],
                 isLoading := false },
       preCalls ++ [ServiceCall.generateReq englishQuery] ++ postCalls)
    | Except.error _ =>
      ({ s1 with chatHistory := s1.chatHistory ++ [⟨Role.model, apologyText⟩],
                 isLoading := false },
       preCalls ++ [ServiceCall.generateReq englishQuery])

/-- The assistant text a completed exchange appends, as a function of the
session language and the fetch outcome. -/
def exchangeReply (lang : String) (o : FetchOutcome) : String :=
  match geminiFetch o with
  | Except.ok extracted =>
    let m := jsOrDefault extracted placeholderText
    if jsStartsWith lang "en" then m else translateText m lang "en-US"
  | Except.error _ => apologyText

/-- Run a sequence of exchanges: before each one the user types the given
input (the field is editable only between exchanges), then submits with the
given fetch outcome. -/
def runExchanges (s : DashState) : List (String × FetchOutcome) → DashState
  | [] => s
  | p :: rest => runExchanges (handleAskAI { s with userInput := p.1 } p.2).1 rest

/-- The assistant view's initial session state: empty history, no exchange in
flight, not listening. -/
def initState (lang : String) : DashState :=
  { userInput := "", chatHistory := [], isLoading := false,
    isListening := false, selectedLanguage := lang }

/-- Observable effects of the voice-capture toggle. -/
inductive VoiceEffect where
  | alertNoVoiceSupport
  | recStop
  | recStart (lang : String)
  | alertLangNotSupported (lang : String)
deriving DecidableEq, Repr

/-- The voice toggle `handleToggleListening` (lines 42-83):
no recognition capability alerts and returns; an active capture is stopped
(toggle-as-cancel); otherwise `recognition.start()` either succeeds and the
listening flag is raised, or throws and the unsupported-language alert is
shown.  `startOk` is the oracle for whether `start()` throws. -/
def handleToggleListening (recognitionAvailable : Bool) (startOk : Bool)
    (s : DashState) : DashState × List VoiceEffect :=
  if recognitionAvailable = false then (s, [VoiceEffect.alertNoVoiceSupport])
  else if s.isListening then ({ s with isListening := false }, [VoiceEffect.recStop])
  else if startOk then
    ({ s with isListening := true }, [VoiceEffect.recStart s.selectedLanguage])
  else ({ s with isListening := false },
        [VoiceEffect.alertLangNotSupported s.selectedLanguage])

/-- The `onresult` handler (lines 63-67): deliver the transcript to the input
field and stop listening.  It only ever runs for a capture that was not
cancelled. -/
def onSpeechResult (transcript : String) (s : DashState) : DashState :=
  { s with userInput := transcript, isListening := false }

/-- A valid submission (non-blank input, no exchange in flight) always reaches
its terminal state: input cleared, flag cleared, and the history grown by the
user message and one assistant message, whatever the fetch outcome. -/
theorem handleAskAI_valid (s : DashState) (o : FetchOutcome)
    (hvalid : jsTrim s.userInput ≠ "") (hload : s.isLoading = false) :
    (handleAskAI s o).1
      = { s with userInput := "", isLoading := false,
                 chatHistory := s.chatHistory
                   ++ [⟨Role.user, s.userInput⟩,
                       ⟨Role.model, exchangeReply s.selectedLanguage o⟩] } := by
  unfold handleAskAI
  rw [if_neg (by simp [hvalid, hload])]
  cases hgf : geminiFetch o with
  | ok extracted => simp [hgf, submitState, exchangeReply]
  | error e => simp [hgf, submitState, exchangeReply]

/-- Claim C1: when a step of a submitted exchange fails (in this program the
translation placeholder is total, so the fallible steps are the generation
fetch, its non-2xx check and its body parse, all reported through
`geminiFetch`), the orchestrator does not re-throw: the exchange terminates
with the in-flight flag false and the history grown by exactly the user
message plus one assistant message carrying the fixed apology text. -/
theorem claim_C1_failure_fallback (s : DashState) (o : FetchOutcome) (msg : String)
    (hvalid : jsTrim s.userInput ≠ "") (hload : s.isLoading = false)
    (hfail : geminiFetch o = Except.error msg) :
    (handleAskAI s o).1.isLoading = false
    ∧ (handleAskAI s o).1.chatHistory
        = s.chatHistory ++ [⟨Role.user, s.userInput⟩, ⟨Role.model, apologyText⟩] := by
  rw [handleAskAI_valid s o hvalid hload]
  exact ⟨rfl, by simp [exchangeReply, hfail]⟩

/-- Witness for C1 at a concrete state: a fresh English session, input
"hello", and a rejecting fetch. -/
theorem claim_C1_failure_fallback_witness :
    (jsTrim "hello" ≠ "")
    ∧ ((handleAskAI ⟨"hello", [], false, false, "en-US"⟩ (FetchOutcome.reject "net down")).1.isLoading = false
       ∧ (handleAskAI ⟨"hello", [], false, false, "en-US"⟩ (FetchOutcome.reject "net down")).1.chatHistory
          = [] ++ [⟨Role.user, "hello"⟩, ⟨Role.model, apologyText⟩]) :=
  ⟨by decide,
   claim_C1_failure_fallback ⟨"hello", [], false, false, "en-US"⟩
     (FetchOutcome.reject "net down") "net down" (by decide) rfl rfl⟩

/-- Claim C3: the in-flight flag is raised by the submission block and the
only observable state between submission and the terminal append is that
submitted state; while the flag is true any submission is rejected with the
state unchanged (so no history change) and no service call; and every
exchange terminates with the flag false. -/
theorem claim_C3_single_flight (s : DashState)
    (hvalid : jsTrim s.userInput ≠ "") (hload : s.isLoading = false) :
    (submitState s).isLoading = true
    ∧ (∀ s2 : DashState, ∀ o2 : FetchOutcome, s2.isLoading = true →
        handleAskAI s2 o2 = (s2, []))
    ∧ (∀ o : FetchOutcome, ((handleAskAI s o).1).isLoading = false) := by
  refine ⟨rfl, ?_, ?_⟩
  · intro s2 o2 h2
    unfold handleAskAI
    rw [if_pos (Or.inr h2)]
  · intro o
    rw [handleAskAI_valid s o hvalid hload]

/-- Witness for C3 at a concrete state. -/
theorem claim_C3_single_flight_witness :
    (jsTrim "hello" ≠ "")
    ∧ ((submitState ⟨"hello", [], false, false, "en-US"⟩).isLoading = true
       ∧ (∀ s2 : DashState, ∀ o2 : FetchOutcome, s2.isLoading = true →
            handleAskAI s2 o2 = (s2, []))
       ∧ (∀ o : FetchOutcome,
            ((handleAskAI ⟨"hello", [], false, false, "en-US"⟩ o).1).isLoading = false)) :=
  ⟨by decide, claim_C3_single_flight ⟨"hello", [], false, false, "en-US"⟩ (by decide) rfl⟩

/-- Claim C4: if the target language denotes English (prefix `en`), the
translation bridge returns the input text unchanged; in particular
`translate(text, en, en) = text` for every text. -/
theorem claim_C4_translate_identity (text targetLang sourceLang : String)
    (h : jsStartsWith targetLang "en" = true) :
    translateText text targetLang sourceLang = text
    ∧ translateText text "en-US" "en-US" = text := by
  have he : jsStartsWith "en-US" "en" = true := by decide
  exact ⟨by simp [translateText, h], by simp [translateText, he]⟩

/-- Witness for C4 at a concrete text and language. -/
theorem claim_C4_translate_identity_witness :
    (jsStartsWith "en-GB" "en" = true)
    ∧ (translateText "hello" "en-GB" "hi-IN" = "hello"
       ∧ translateText "hello" "en-US" "en-US" = "hello") :=
  ⟨by decide, claim_C4_translate_identity "hello" "en-GB" "hi-IN" (by decide)⟩

/-- Claim C5: an empty or whitespace-only input is rejected at the entry
guard: the state (history included) is unchanged, no service call is made,
and the in-flight flag stays false. -/
theorem claim_C5_blank_input_rejected (s : DashState) (o : FetchOutcome)
    (hempty : jsTrim s.userInput = "") (hload : s.isLoading = false) :
    handleAskAI s o = (s, []) ∧ (handleAskAI s o).1.isLoading = false := by
  have h : handleAskAI s o = (s, []) := by
    unfold handleAskAI
    rw [if_pos (Or.inl hempty)]
  exact ⟨h, by rw [h]; exact hload⟩

/-- Witness for C5 at a whitespace-only concrete input. -/
theorem claim_C5_blank_input_rejected_witness :
    (jsTrim "   " = "")
    ∧ (handleAskAI ⟨"   ", [], false, false, "hi-IN"⟩ (FetchOutcome.reject "x")
        = (⟨"   ", [], false, false, "hi-IN"⟩, [])
       ∧ (handleAskAI ⟨"   ", [], false, false, "hi-IN"⟩ (FetchOutcome.reject "x")).1.isLoading
          = false) :=
  ⟨by decide,
   claim_C5_blank_input_rejected ⟨"   ", [], false, false, "hi-IN"⟩
     (FetchOutcome.reject "x") (by decide) rfl⟩

/-- Claim C7: on a non-ok (non-2xx) response the generation client throws an
error whose message contains the response's status text and its structured
error body. -/
theorem claim_C7_error_surfaced (statusText errorBody : String) (extracted : Option String) :
    geminiFetch (FetchOutcome.resp false statusText errorBody extracted)
      = Except.error ("API error: " ++ statusText ++ " - " ++ errorBody)
    ∧ (∃ pre post, "API error: " ++ statusText ++ " - " ++ errorBody
        = pre ++ errorBody ++ post)
    ∧ (∃ pre post, "API error: " ++ statusText ++ " - " ++ errorBody
        = pre ++ statusText ++ post) := by
  refine ⟨rfl, ⟨"API error: " ++ statusText ++ " - ", "", ?_⟩,
          ⟨"API error: ", " - " ++ errorBody, ?_⟩⟩
  · simp [String.append_assoc, String.append_empty]
  · simp [String.append_assoc]

/-- Claim C8: toggling voice capture while listening cancels it: recognition
is stopped, the session returns to idle, and no transcript reaches the input
field (the only effect is the stop; the input text is untouched). -/
theorem claim_C8_toggle_cancels (s : DashState) (startOk : Bool)
    (h : s.isListening = true) :
    handleToggleListening true startOk s
      = ({ s with isListening := false }, [VoiceEffect.recStop])
    ∧ (handleToggleListening true startOk s).1.isListening = false
    ∧ (handleToggleListening true startOk s).1.userInput = s.userInput := by
  have hmain : handleToggleListening true startOk s
      = ({ s with isListening := false }, [VoiceEffect.recStop]) := by
    unfold handleToggleListening
    rw [if_neg (by simp), if_pos h]
  exact ⟨hmain, by rw [hmain], by rw [hmain]⟩

/-- Witness for C8 at a concrete listening state. -/
theorem claim_C8_toggle_cancels_witness :
    ((⟨"draft", [], false, true, "mr-IN"⟩ : DashState).isListening = true)
    ∧ (handleToggleListening true true ⟨"draft", [], false, true, "mr-IN"⟩
        = (⟨"draft", [], false, false, "mr-IN"⟩, [VoiceEffect.recStop])
       ∧ (handleToggleListening true true ⟨"draft", [], false, true, "mr-IN"⟩).1.isListening = false
       ∧ (handleToggleListening true true ⟨"draft", [], false, true, "mr-IN"⟩).1.userInput
          = "draft") :=
  ⟨rfl, claim_C8_toggle_cancels ⟨"draft", [], false, true, "mr-IN"⟩ true rfl⟩

/-- Claim C9: for non-empty input the translation bridge never returns the
empty string, for any source/target pair. -/
theorem claim_C9_nonempty (text targetLang sourceLang : String) (h : text ≠ "") :
    translateText text targetLang sourceLang ≠ "" := by
  unfold translateText
  split
  · exact h
  · intro heq
    have hl := congrArg String.length heq
    simp only [String.length_append] at hl
    have h1 : String.length "[" = 1 := by decide
    have h2 : String.length "] " = 2 := by decide
    have h0 : String.length "" = 0 := by decide
    omega

/-- Witness for C9 at a concrete non-empty text and a non-English target. -/
theorem claim_C9_nonempty_witness :
    ("hello" ≠ "") ∧ translateText "hello" "hi-IN" "en-US" ≠ "" :=
  ⟨by decide, claim_C9_nonempty "hello" "hi-IN" "en-US" (by decide)⟩

/-- Claim C6: for a non-English session language a completed exchange calls
the translation bridge toward English exactly once before the generation
call and toward the session language exactly once after it, in that order;
for an English session language the bridge is never called. -/
theorem claim_C6_translate_call_order (s : DashState) (o : FetchOutcome)
    (hvalid : jsTrim s.userInput ≠ "") (hload : s.isLoading = false) :
    (jsStartsWith s.selectedLanguage "en" = false →
      ∀ extracted, geminiFetch o = Except.ok extracted →
      (handleAskAI s o).2
        = [ServiceCall.translateReq s.userInput "en-US" s.selectedLanguage,
           ServiceCall.generateReq (translateText s.userInput "en-US" s.selectedLanguage),
           ServiceCall.translateReq (jsOrDefault extracted placeholderText)
             s.selectedLanguage "en-US"])
    ∧ (jsStartsWith s.selectedLanguage "en" = true →
      (handleAskAI s o).2 = [ServiceCall.generateReq s.userInput]) := by
  constructor
  · intro hlang extracted hok
    unfold handleAskAI
    rw [if_neg (by simp [hvalid, hload])]
    simp [hok, hlang]
  · intro hlang
    unfold handleAskAI
    rw [if_neg (by simp [hvalid, hload])]
    cases hgf : geminiFetch o <;> simp [hgf, hlang]

/-- Witness for C6: a Hindi session with input in Hindi and a successful
generation, and an English session with any outcome. -/
theorem claim_C6_translate_call_order_witness :
    (jsTrim "मुझे तनाव है" ≠ "")
    ∧ ((jsStartsWith "hi-IN" "en" = false →
        ∀ extracted,
          geminiFetch (FetchOutcome.resp true "OK" "" (some "Take rest.")) = Except.ok extracted →
        (handleAskAI ⟨"मुझे तनाव है", [], false, false, "hi-IN"⟩
            (FetchOutcome.resp true "OK" "" (some "Take rest."))).2
          = [ServiceCall.translateReq "मुझे तनाव है" "en-US" "hi-IN",
             ServiceCall.generateReq (translateText "मुझे तनाव है" "en-US" "hi-IN"),
             ServiceCall.translateReq (jsOrDefault extracted placeholderText) "hi-IN" "en-US"])
       ∧ (jsStartsWith "hi-IN" "en" = true →
          (handleAskAI ⟨"मुझे तनाव है", [], false, false, "hi-IN"⟩
              (FetchOutcome.resp true "OK" "" (some "Take rest."))).2
            = [ServiceCall.generateReq "मुझे तनाव है"])) :=
  ⟨by decide,
   claim_C6_translate_call_order ⟨"मुझे तनाव है", [], false, false, "hi-IN"⟩
     (FetchOutcome.resp true "OK" "" (some "Take rest.")) (by decide) rfl⟩

/-- Claim C10: when the response parses but carries no usable text (absent or
empty extracted field), the orchestrator substitutes the fixed placeholder
and, for a non-English session language, passes the placeholder through the
translation bridge before appending it as the assistant message. -/
theorem claim_C10_placeholder_translated (s : DashState)
    (statusText errorBody : String) (extracted : Option String)
    (hvalid : jsTrim s.userInput ≠ "") (hload : s.isLoading = false)
    (hlang : jsStartsWith s.selectedLanguage "en" = false)
    (hempty : extracted = none ∨ extracted = some "") :
    ((handleAskAI s (FetchOutcome.resp true statusText errorBody extracted)).1).chatHistory
      = s.chatHistory ++ [⟨Role.user, s.userInput⟩,
          ⟨Role.model, translateText placeholderText s.selectedLanguage "en-US"⟩]
    ∧ (handleAskAI s (FetchOutcome.resp true statusText errorBody extracted)).2
      = [ServiceCall.translateReq s.userInput "en-US" s.selectedLanguage,
         ServiceCall.generateReq (translateText s.userInput "en-US" s.selectedLanguage),
         ServiceCall.translateReq placeholderText s.selectedLanguage "en-US"] := by
  have hor : jsOrDefault extracted placeholderText = placeholderText := by
    rcases hempty with h | h <;> simp [h, jsOrDefault]
  have hok : geminiFetch (FetchOutcome.resp true statusText errorBody extracted)
      = Except.ok extracted := rfl
  constructor
  · rw [handleAskAI_valid s _ hvalid hload]
    simp [exchangeReply, hok, hor, hlang]
  · unfold handleAskAI
    rw [if_neg (by simp [hvalid, hload])]
    simp [hok, hlang, hor]

/-- Witness for C10: a Marathi session whose successful response has an
absent text field. -/
theorem claim_C10_placeholder_translated_witness :
    (jsTrim "hi" ≠ "")
    ∧ (((handleAskAI ⟨"hi", [], false, false, "mr-IN"⟩
          (FetchOutcome.resp true "OK" "" none)).1).chatHistory
        = [] ++ [⟨Role.user, "hi"⟩,
            ⟨Role.model, translateText placeholderText "mr-IN" "en-US"⟩]
       ∧ (handleAskAI ⟨"hi", [], false, false, "mr-IN"⟩
            (FetchOutcome.resp true "OK" "" none)).2
          = [ServiceCall.translateReq "hi" "en-US" "mr-IN",
             ServiceCall.generateReq (translateText "hi" "en-US" "mr-IN"),
             ServiceCall.translateReq placeholderText "mr-IN" "en-US"]) :=
  ⟨by decide,
   claim_C10_placeholder_translated ⟨"hi", [], false, false, "mr-IN"⟩
     "OK" "" none (by decide) rfl (by decide) (Or.inl rfl)⟩

/-- Running a list of valid exchanges appends, for each exchange in order,
the user message followed by the assistant reply it produced; the flag and
the session language are back where they started. -/
theorem runExchanges_history (l : List (String × FetchOutcome)) :
    ∀ s : DashState, s.isLoading = false →
    (∀ p ∈ l, jsTrim (Prod.fst p) ≠ "") →
    (runExchanges s l).chatHistory
      = s.chatHistory
        ++ (l.map (fun p =>
            [ChatMessage.mk Role.user p.1,
             ChatMessage.mk Role.model (exchangeReply s.selectedLanguage p.2)])).flatten
    ∧ (runExchanges s l).isLoading = false
    ∧ (runExchanges s l).selectedLanguage = s.selectedLanguage := by
  induction l with
  | nil =>
    intro s hload hne
    exact ⟨by simp [runExchanges], hload, rfl⟩
  | cons p rest ih =>
    intro s hload hne
    have hp : jsTrim p.1 ≠ "" := hne p (List.mem_cons_self p rest)
    have hrest : ∀ q ∈ rest, jsTrim (Prod.fst q) ≠ "" :=
      fun q hq => hne q (List.mem_cons_of_mem p hq)
    have hstep : (handleAskAI { s with userInput := p.1 } p.2).1
        = { s with userInput := "", isLoading := false,
                   chatHistory := (s.chatHistory
                     ++ [⟨Role.user, p.1⟩,
                         ⟨Role.model, exchangeReply s.selectedLanguage p.2⟩]) } :=
      handleAskAI_valid { s with userInput := p.1 } p.2 hp hload
    simp only [runExchanges]
    rw [hstep]
    obtain ⟨h1, h2, h3⟩ :=
      ih { s with userInput := "", isLoading := false,
                  chatHistory := (s.chatHistory
                    ++ [⟨Role.user, p.1⟩,
                        ⟨Role.model, exchangeReply s.selectedLanguage p.2⟩]) } rfl hrest
    refine ⟨?_, h2, h3⟩
    rw [h1]
    simp [List.append_assoc]

/-- The per-exchange message pairs make a history of twice the number of
exchanges. -/
theorem exchange_pairs_length (lang : String) (l : List (String × FetchOutcome)) :
    ((l.map (fun p => [ChatMessage.mk Role.user p.1,
        ChatMessage.mk Role.model (exchangeReply lang p.2)])).flatten).length
      = 2 * l.length := by
  induction l with
  | nil => simp
  | cons p rest ih => simp [ih]; omega

/-- The per-exchange message pairs strictly alternate user then assistant. -/
theorem exchange_pairs_roles (lang : String) (l : List (String × FetchOutcome)) :
    ((l.map (fun p => [ChatMessage.mk Role.user p.1,
        ChatMessage.mk Role.model (exchangeReply lang p.2)])).flatten).map ChatMessage.role
      = (List.replicate l.length [Role.user, Role.model]).flatten := by
  induction l with
  | nil => simp
  | cons p rest ih => simp [List.replicate_succ, ih]

/-- Claim C2: starting from an empty history, after N exchanges the history
is exactly the concatenation, in submission order, of each user message
immediately followed by the assistant reply it produced; hence it has length
2N and strictly alternates user and assistant roles starting with user. -/
theorem claim_C2_history_shape (lang : String) (l : List (String × FetchOutcome))
    (hne : ∀ p ∈ l, jsTrim (Prod.fst p) ≠ "")
    (hok : ∀ p ∈ l, ∃ extracted, geminiFetch (Prod.snd p) = Except.ok extracted) :
    (runExchanges (initState lang) l).chatHistory
      = (l.map (fun p => [ChatMessage.mk Role.user p.1,
          ChatMessage.mk Role.model (exchangeReply lang p.2)])).flatten
    ∧ (runExchanges (initState lang) l).chatHistory.length = 2 * l.length
    ∧ (runExchanges (initState lang) l).chatHistory.map ChatMessage.role
      = (List.replicate l.length [Role.user, Role.model]).flatten := by
  obtain ⟨h1, h2, h3⟩ := runExchanges_history l (initState lang) rfl hne
  have h1' : (runExchanges (initState lang) l).chatHistory
      = (l.map (fun p => [ChatMessage.mk Role.user p.1,
          ChatMessage.mk Role.model (exchangeReply lang p.2)])).flatten := by
    rw [h1]; simp [initState]
  exact ⟨h1', by rw [h1']; exact exchange_pairs_length lang l,
         by rw [h1']; exact exchange_pairs_roles lang l⟩

/-- Witness for C2: two successful exchanges in an English session. -/
theorem claim_C2_history_shape_witness :
    (jsTrim "first" ≠ "" ∧ jsTrim "second" ≠ "")
    ∧ ((runExchanges (initState "en-US")
          [("first", FetchOutcome.resp true "OK" "" (some "reply one")),
           ("second", FetchOutcome.resp true "OK" "" (some "reply two"))]).chatHistory
        = ([("first", FetchOutcome.resp true "OK" "" (some "reply one")),
            ("second", FetchOutcome.resp true "OK" "" (some "reply two"))].map
            (fun p => [ChatMessage.mk Role.user p.1,
              ChatMessage.mk Role.model (exchangeReply "en-US" p.2)])).flatten
       ∧ (runExchanges (initState "en-US")
            [("first", FetchOutcome.resp true "OK" "" (some "reply one")),
             ("second", FetchOutcome.resp true "OK" "" (some "reply two"))]).chatHistory.length
          = 2 * 2
       ∧ (runExchanges (initState "en-US")
            [("first", FetchOutcome.resp true "OK" "" (some "reply one")),
             ("second", FetchOutcome.resp true "OK" "" (some "reply two"))]).chatHistory.map
            ChatMessage.role
          = (List.replicate 2 [Role.user, Role.model]).flatten) :=
  ⟨⟨by decide, by decide⟩,
   claim_C2_history_shape "en-US"
     [("first", FetchOutcome.resp true "OK" "" (some "reply one")),
      ("second", FetchOutcome.resp true "OK" "" (some "reply two"))]
     (by decide)
     (by intro p hp
         fin_cases hp
         · exact ⟨some "reply one", rfl⟩
         · exact ⟨some "reply two", rfl⟩)⟩

end AyurSutra
